import Mathlib

/-!
# Verification of the GL texture-statistics and mesh-picking engine

Shallow embedding of `GLReplay::GetMinMax`, `GLReplay::GetHistogram` and
`GLReplay::PickVertex` from `driver/gl/gl_debug.cpp`, together with the
index-normalization and staging-buffer logic they use.  Machine `uint32_t`
arithmetic is modelled as `Nat` with explicit `% 2^32` where overflow can
occur; `float` quantities that only ever feed comparisons are modelled as
`ℚ`, and the one float computation a claim inspects (`HistogramMax`) is
embedded through an explicit binary32 round-to-nearest-even model over
`ℚ`.  GPU-side shader outputs (pick candidates, histogram increments) are
abstracted as explicit inputs, since the compute shaders are not part of
the embedded source; the host-side driving logic is translated directly.
-/

/-- `DebugRenderData::maxMeshPicks`.  Modelled from the spec: the maximum
candidate-list capacity is a fixed constant shared with the compute pass;
its definition is not under `src/` (renderdoc uses 500). -/
def maxMeshPicks : Nat := 500

/-- `HGRAM_NUM_BUCKETS`.  Modelled from the spec: the histogram bucket
count is a fixed constant shared with the compute pass; its definition is
not under `src/` (renderdoc uses 256). -/
def HGRAM_NUM_BUCKETS : Nat := 256

/-- `~0U`, the sentinel returned by `PickVertex` when nothing is picked. -/
def PICK_NONE : Nat := 2 ^ 32 - 1

/-! ## Vertex index normalization (`PickVertex`, gl_debug.cpp 1321-1454) -/

/-- The raw index the code reads for entry `i` of the staged index bytes:
stride 1 reads `idxs8[i]`, stride 2 reads `idxs16[i]` (little endian).
Every other stride falls into the `else` branch, which reads `idxs[i]`
where `idxs` is the `byte *` staging allocation - i.e. it reads the i-th
BYTE, not the i-th 32-bit word.  Bytes beyond the staged data read 0
(the staging buffer is `memset` to zero before the partial read). -/
def readRawIndex (stride : Nat) (bytes : List Nat) (i : Nat) : Nat :=
  if stride = 1 then bytes.getD i 0
  else if stride = 2 then bytes.getD (2 * i) 0 + 256 * bytes.getD (2 * i + 1) 0
  else bytes.getD i 0

/-- Modelled from the spec: the reference little-endian decode of the
i-th raw index of a `stride`-byte index buffer ("a raw index buffer of
1/2/4-byte stride"), against which the code's reads are compared. -/
def refRawIndex (stride : Nat) (bytes : List Nat) (i : Nat) : Nat :=
  (List.range stride).foldl (fun a k => a + bytes.getD (stride * i + k) 0 * 256 ^ k) 0

/-- `idxclamp`: `uint32_t(-baseVertex)` when the base vertex is negative,
otherwise 0 (gl_debug.cpp 1321-1323). -/
def idxClamp (baseVertex : Int) : Nat :=
  if baseVertex < 0 then (-baseVertex).toNat else 0

/-- One step of the index normalization (the body shared by the three
stride branches, gl_debug.cpp 1369-1376 / 1399-1406 / 1429-1436).
`idx += baseVertex` on positive base vertex is `uint32_t` addition, hence
the `% 2^32`; the subtraction is guarded by `idx ≥ idxclamp` so it never
wraps. -/
def normIndex (baseVertex : Int) (idx : Nat) : Nat :=
  if idx < idxClamp baseVertex then 0
  else if baseVertex < 0 then idx - idxClamp baseVertex
  else if 0 < baseVertex then (idx + baseVertex.toNat) % 2 ^ 32
  else idx

/-- The `minIndex`/`maxIndex` tracking of the normalization loops:
`minIndex` starts at 0 and `maxIndex` at `numIndices`, iteration 0
overwrites both with the first normalized index, later iterations fold
`RDCMIN`/`RDCMAX` (gl_debug.cpp 1318-1319, 1378-1386). -/
def scanMinMax (idxs : List Nat) (numIndices : Nat) : Nat × Nat :=
  match idxs with
  | [] => (0, numIndices)
  | x :: rest => rest.foldl (fun mm idx => (min idx mm.1, max idx mm.2)) (x, x)

/-- The whole index-normalization pass of `PickVertex`: the normalized
`outidxs` stream together with the tracked `(minIndex, maxIndex)`. -/
def pickIndexScan (stride : Nat) (bytes : List Nat) (numIndices : Nat)
    (baseVertex : Int) : List Nat × Nat × Nat :=
  let out := (List.range numIndices).map
    (fun i => normIndex baseVertex (readRawIndex stride bytes i))
  (out, scanMinMax out numIndices)

/-- Modelled from the spec: the reference fold over the same raw bytes -
decode each raw index at its stride, normalize it, and track min/max. -/
def refIndexScan (stride : Nat) (bytes : List Nat) (numIndices : Nat)
    (baseVertex : Int) : List Nat × Nat × Nat :=
  let out := (List.range numIndices).map
    (fun i => normIndex baseVertex (refRawIndex stride bytes i))
  (out, scanMinMax out numIndices)

/-- Claim C1: with stride 4, two raw indices `1` and `2` (bytes
`01 00 00 00 02 00 00 00`, base vertex 0), the code's `else` branch reads
the i-th byte instead of the i-th 32-bit word, normalizing the stream to
`[1, 0]` with tracked max 1, while the reference fold over the same raw
bytes yields `[1, 2]` with max 2. -/
theorem pickIndex_stride4_byte_read_eval :
    pickIndexScan 4 [1, 0, 0, 0, 2, 0, 0, 0] 2 0 = ([1, 0], 0, 1) ∧
    refIndexScan 4 [1, 0, 0, 0, 2, 0, 0, 0] 2 0 = ([1, 2], 1, 2) ∧
    (1 : Nat) ≠ 2 := by
  refine ⟨?_, ?_, by decide⟩ <;> decide

/-! ## Mesh vertex picking: candidate resolution (gl_debug.cpp 1182-1589) -/

/-- The subset of `Topology` values `PickVertex` distinguishes: the five
triangle cases of the `switch`, and `other` for the `default` case
(points, lines, patch lists, unknown). -/
inductive Topology where
  | triangleList
  | triangleStrip
  | triangleFan
  | triangleListAdj
  | triangleStripAdj
  | other
deriving DecidableEq, Repr

/-- `isTriangleMesh`: set `true` before the `switch`, cleared only by the
`default` case (gl_debug.cpp 1273-1306). -/
def isTriangleMesh : Topology → Bool
  | .other => false
  | _ => true

/-- The triangle-topology `PickResult` struct: vertex id plus the
distance `(intersectionPoint - rayPos).Length()`, the only use the host
makes of the intersection point.  The float distance is modelled as a
rational. -/
structure TriPick where
  vertid : Nat
  dist : ℚ
deriving DecidableEq, Repr

/-- The non-triangle `PickResult` struct: vertex id, index, screen-space
distance to the cursor (`len`) and depth, as appended by the compute
pass.  Floats modelled as rationals. -/
structure LinePick where
  vertid : Nat
  idx : Nat
  len : ℚ
  depth : ℚ
deriving DecidableEq, Repr

/-- The triangle resolution loop (gl_debug.cpp 1529-1545): `closest`
starts at entry 0 and `closestPickDistance` at entry 0's distance; each
later candidate is compared against `closestPickDistance` - which the
loop body never updates - and replaces `closest` if smaller. -/
def closestTriPick (c0 : TriPick) (rest : List TriPick) : TriPick :=
  rest.foldl (fun c r => if r.dist < c0.dist then r else c) c0

/-- The non-triangle comparison (gl_debug.cpp 1575-1578): strictly
smaller screen distance, or equal distance and strictly smaller depth,
or equal distance and depth and strictly smaller vertex id. -/
def linePickLt (r c : LinePick) : Prop :=
  r.len < c.len ∨ (r.len = c.len ∧ r.depth < c.depth) ∨
    (r.len = c.len ∧ r.depth = c.depth ∧ r.vertid < c.vertid)

instance (r c : LinePick) : Decidable (linePickLt r c) := by
  unfold linePickLt; infer_instance

/-- The non-triangle resolution loop (gl_debug.cpp 1563-1580): `closest`
starts at entry 0 and each later candidate replaces it when
`linePickLt` against the current `closest` holds. -/
def closestLinePick (c0 : LinePick) (rest : List LinePick) : LinePick :=
  rest.foldl (fun c r => if linePickLt r c then r else c) c0

/-- The tail end of `PickVertex`: the compute-capability guard (1187),
the `numResults > 0` guard (1513) and the per-topology resolution over
the first `min(maxMeshPicks, numResults)` entries of the mapped result
buffer.  The GPU-written buffers are passed in explicitly (`triBuf` for
triangle topologies, `lineBuf` otherwise); the mapped buffer always
holds `maxMeshPicks` entries, so the empty-buffer fallback is
unreachable in a real call and theorems require the buffer nonempty. -/
def pickVertex (hasCompute : Bool) (topo : Topology) (numResults : Nat)
    (triBuf : List TriPick) (lineBuf : List LinePick) : Nat :=
  if hasCompute = false then PICK_NONE
  else if numResults = 0 then PICK_NONE
  else if isTriangleMesh topo then
    match triBuf with
    | [] => PICK_NONE
    | c0 :: rest =>
      (closestTriPick c0 (rest.take (min maxMeshPicks numResults - 1))).vertid
  else
    match lineBuf with
    | [] => PICK_NONE
    | c0 :: rest =>
      (closestLinePick c0 (rest.take (min maxMeshPicks numResults - 1))).vertid

/-- Claim C2: on a triangle topology with three candidates at distances
`5, 3, 4` (vertex ids `0, 1, 2`), the code returns vertex id 2 - the
last candidate closer than candidate 0 - although the minimum-distance
candidate is vertex id 1: `closestPickDistance` is never updated inside
the selection loop. -/
theorem pickVertex_triangle_distance_bug_eval :
    pickVertex true Topology.triangleList 3
      [⟨0, 5⟩, ⟨1, 3⟩, ⟨2, 4⟩] [] = 2 ∧
    (2 : Nat) ≠ 1 ∧ (3 : ℚ) < 5 ∧ (3 : ℚ) < 4 := by
  refine ⟨?_, by decide, by norm_num, by norm_num⟩
  norm_num [pickVertex, isTriangleMesh, maxMeshPicks, closestTriPick, PICK_NONE]

/-- Lexicographic `≤` on `(len, depth, vertid)`, the reflexive closure of
`linePickLt`: the order the non-triangle resolution minimizes. -/
def lexLE (c c' : LinePick) : Prop :=
  c.len < c'.len ∨
    (c.len = c'.len ∧ (c.depth < c'.depth ∨ (c.depth = c'.depth ∧ c.vertid ≤ c'.vertid)))

theorem lexLE_refl (a : LinePick) : lexLE a a :=
  Or.inr ⟨rfl, Or.inr ⟨rfl, le_refl _⟩⟩

theorem lexLE_of_lt {r c : LinePick} (h : linePickLt r c) : lexLE r c := by
  rcases h with h | ⟨h1, h2⟩ | ⟨h1, h2, h3⟩
  · exact Or.inl h
  · exact Or.inr ⟨h1, Or.inl h2⟩
  · exact Or.inr ⟨h1, Or.inr ⟨h2, le_of_lt h3⟩⟩

theorem lexLE_of_not_lt {r c : LinePick} (h : ¬ linePickLt r c) : lexLE c r := by
  unfold linePickLt at h
  push_neg at h
  obtain ⟨h1, h2, h3⟩ := h
  rcases eq_or_lt_of_le h1 with heq | hlt
  · refine Or.inr ⟨heq, ?_⟩
    rcases eq_or_lt_of_le (h2 heq.symm) with hdeq | hdlt
    · exact Or.inr ⟨hdeq, h3 heq.symm hdeq.symm⟩
    · exact Or.inl hdlt
  · exact Or.inl hlt

theorem lexLE_trans {a b c : LinePick} (h1 : lexLE a b) (h2 : lexLE b c) :
    lexLE a c := by
  rcases h1 with h1 | ⟨e1, h1⟩
  · rcases h2 with h2 | ⟨e2, h2⟩
    · exact Or.inl (h1.trans h2)
    · exact Or.inl (lt_of_lt_of_le h1 (le_of_eq e2))
  · rcases h2 with h2 | ⟨e2, h2⟩
    · exact Or.inl (lt_of_le_of_lt (le_of_eq e1) h2)
    · refine Or.inr ⟨e1.trans e2, ?_⟩
      rcases h1 with h1 | ⟨d1, h1⟩
      · rcases h2 with h2 | ⟨d2, h2⟩
        · exact Or.inl (h1.trans h2)
        · exact Or.inl (lt_of_lt_of_le h1 (le_of_eq d2))
      · rcases h2 with h2 | ⟨d2, h2⟩
        · exact Or.inl (lt_of_le_of_lt (le_of_eq d1) h2)
        · exact Or.inr ⟨d1.trans d2, h1.trans h2⟩

theorem lexLE_antisymm_vertid {a b : LinePick} (h1 : lexLE a b) (h2 : lexLE b a) :
    a.vertid = b.vertid := by
  rcases h1 with h1 | ⟨e1, h1⟩ <;> rcases h2 with h2 | ⟨e2, h2⟩
  · exact absurd h2 (not_lt.mpr h1.le)
  · exact absurd e2 (ne_of_gt h1)
  · exact absurd e1 (ne_of_gt h2)
  · rcases h1 with h1 | ⟨d1, h1⟩ <;> rcases h2 with h2 | ⟨d2, h2⟩
    · exact absurd h2 (not_lt.mpr h1.le)
    · exact absurd d2 (ne_of_gt h1)
    · exact absurd d1 (ne_of_gt h2)
    · exact le_antisymm h1 h2

theorem closestLinePick_cons (c0 r : LinePick) (rs : List LinePick) :
    closestLinePick c0 (r :: rs) =
      closestLinePick (if linePickLt r c0 then r else c0) rs := rfl

theorem closestLinePick_mem (c0 : LinePick) (rest : List LinePick) :
    closestLinePick c0 rest ∈ c0 :: rest := by
  induction rest generalizing c0 with
  | nil => simp [closestLinePick]
  | cons r rs ih =>
    rw [closestLinePick_cons]
    by_cases h : linePickLt r c0
    · rw [if_pos h]
      have hm := ih r
      simp only [List.mem_cons] at hm ⊢
      tauto
    · rw [if_neg h]
      have hm := ih c0
      simp only [List.mem_cons] at hm ⊢
      tauto

theorem closestLinePick_le (c0 : LinePick) (rest : List LinePick) :
    ∀ x ∈ c0 :: rest, lexLE (closestLinePick c0 rest) x := by
  induction rest generalizing c0 with
  | nil =>
    intro x hx
    simp only [List.mem_singleton] at hx
    subst hx
    exact lexLE_refl _
  | cons r rs ih =>
    intro x hx
    rw [closestLinePick_cons]
    by_cases h : linePickLt r c0
    · rw [if_pos h]
      have hres : lexLE (closestLinePick r rs) r := ih r r (List.mem_cons_self _ _)
      rcases List.mem_cons.mp hx with h1 | h1
      · subst h1
        exact lexLE_trans hres (lexLE_of_lt h)
      · rcases List.mem_cons.mp h1 with h2 | h2
        · subst h2
          exact hres
        · exact ih r x (List.mem_cons_of_mem _ h2)
    · rw [if_neg h]
      have hres : lexLE (closestLinePick c0 rs) c0 := ih c0 c0 (List.mem_cons_self _ _)
      rcases List.mem_cons.mp hx with h1 | h1
      · subst h1
        exact hres
      · rcases List.mem_cons.mp h1 with h2 | h2
        · subst h2
          exact lexLE_trans hres (lexLE_of_not_lt h)
        · exact ih c0 x (List.mem_cons_of_mem _ h2)

/-- Claim C4: on a non-triangle topology with at least one candidate, the
returned vertex id is that of the lexicographic minimum of
`(len, depth, vertid)` over the first `min(numResults, maxMeshPicks)`
candidates of the result buffer; any candidate that is a lexicographic
lower bound of those candidates has that same vertex id, so the choice is
independent of the order in which the GPU appended candidates. -/
theorem pickVertex_nontriangle_lexmin (topo : Topology)
    (hTopo : isTriangleMesh topo = false) (numResults : Nat)
    (hn : 0 < numResults) (triBuf : List TriPick) (c0 : LinePick)
    (rest : List LinePick) :
    ∃ c, c ∈ (c0 :: rest).take (min maxMeshPicks numResults) ∧
      pickVertex true topo numResults triBuf (c0 :: rest) = c.vertid ∧
      (∀ x ∈ (c0 :: rest).take (min maxMeshPicks numResults), lexLE c x) ∧
      (∀ c' ∈ (c0 :: rest).take (min maxMeshPicks numResults),
        (∀ x ∈ (c0 :: rest).take (min maxMeshPicks numResults), lexLE c' x) →
        pickVertex true topo numResults triBuf (c0 :: rest) = c'.vertid) := by
  have hpos : 0 < min maxMeshPicks numResults := by
    have : (0 : Nat) < maxMeshPicks := by norm_num [maxMeshPicks]
    exact lt_min this hn
  have htake : (c0 :: rest).take (min maxMeshPicks numResults) =
      c0 :: rest.take (min maxMeshPicks numResults - 1) := by
    obtain ⟨k, hk⟩ : ∃ k, min maxMeshPicks numResults = k + 1 :=
      ⟨min maxMeshPicks numResults - 1, (Nat.succ_pred_eq_of_pos hpos).symm⟩
    rw [hk]
    simp
  have hpv : pickVertex true topo numResults triBuf (c0 :: rest) =
      (closestLinePick c0 (rest.take (min maxMeshPicks numResults - 1))).vertid := by
    unfold pickVertex
    rw [if_neg (by simp), if_neg (by omega), if_neg (by simp [hTopo])]
  refine ⟨closestLinePick c0 (rest.take (min maxMeshPicks numResults - 1)),
    ?_, hpv, ?_, ?_⟩
  · rw [htake]
    exact closestLinePick_mem _ _
  · rw [htake]
    exact closestLinePick_le _ _
  · intro c' hc' hmin
    rw [htake] at hc' hmin
    have h1 : lexLE (closestLinePick c0 (rest.take (min maxMeshPicks numResults - 1))) c' :=
      closestLinePick_le _ _ c' hc'
    have h2 : lexLE c' (closestLinePick c0 (rest.take (min maxMeshPicks numResults - 1))) :=
      hmin _ (by rw [← htake]; rw [htake]; exact closestLinePick_mem _ _)
    rw [hpv]
    exact (lexLE_antisymm_vertid h2 h1).symm

/-- Witness for C4: a single candidate with vertex id 7 is returned. -/
theorem pickVertex_nontriangle_lexmin_witness :
    pickVertex true Topology.other 1 [] [⟨7, 1, 2, 3⟩] = 7 := by
  obtain ⟨c, hc, he, -, -⟩ :=
    pickVertex_nontriangle_lexmin Topology.other rfl 1 (by norm_num) []
      ⟨7, 1, 2, 3⟩ []
  have hc7 : c = ⟨7, 1, 2, 3⟩ := by
    simpa [maxMeshPicks] using hc
  rw [he, hc7]

/-! ## Texture statistics: GetMinMax / GetHistogram (gl_debug.cpp 829-1180) -/

/-- The texture kinds the `switch` over `texDetails.curType` enumerates,
plus `unknown` for any other GL enum (the `default` case). -/
inductive GLTexType where
  | renderbuffer
  | tex1D
  | tex2D
  | tex2DMS
  | texRect
  | texBuffer
  | tex3D
  | texCube
  | tex1DArray
  | tex2DArray
  | texCubeArray
  | unknown
deriving DecidableEq, Repr

/-- `RESTYPE_*` binding-slot constants (values from the shared shader
header, as in renderdoc's `debuguniforms.h`; only their distinctness
matters here). -/
def RESTYPE_TEX1D : Nat := 1

def RESTYPE_TEX2D : Nat := 2

def RESTYPE_TEX3D : Nat := 3

def RESTYPE_TEXCUBE : Nat := 4

def RESTYPE_TEX1DARRAY : Nat := 5

def RESTYPE_TEX2DARRAY : Nat := 6

def RESTYPE_TEXCUBEARRAY : Nat := 7

def RESTYPE_TEXRECT : Nat := 8

def RESTYPE_TEXBUFFER : Nat := 9

def RESTYPE_TEX2DMS : Nat := 10

/-- The `texSlot` chosen by the `switch` (gl_debug.cpp 849-868 and
1023-1042): renderbuffers use the 2D slot, and the `default` case warns
and falls through to the `TEXTURE_2D` case. -/
def texSlotOf : GLTexType → Nat
  | .renderbuffer => RESTYPE_TEX2D
  | .tex1D => RESTYPE_TEX1D
  | .tex2D => RESTYPE_TEX2D
  | .tex2DMS => RESTYPE_TEX2DMS
  | .texRect => RESTYPE_TEXRECT
  | .texBuffer => RESTYPE_TEXBUFFER
  | .tex3D => RESTYPE_TEX3D
  | .texCube => RESTYPE_TEXCUBE
  | .tex1DArray => RESTYPE_TEX1DARRAY
  | .tex2DArray => RESTYPE_TEX2DARRAY
  | .texCubeArray => RESTYPE_TEXCUBEARRAY
  | .unknown => RESTYPE_TEX2D

/-- The slice of texture state the statistics paths read and write:
its current bind type, its mip count (`details.mips`) and its current
`TEXTURE_MAX_LEVEL` parameter. -/
structure TexDetails where
  curType : GLTexType
  mips : Nat
  maxLevel : Int
deriving DecidableEq, Repr

/-- Coarse trace of the GPU commands a statistics call issues, in
program order.  `dispatch` records the `TEXTURE_MAX_LEVEL` in effect for
the bound texture at that dispatch. -/
inductive GLCmd where
  | blit
  | mapUBO
  | bindTexture (slot : Nat)
  | setMaxLevel (v : Int)
  | bindBuffer
  | clearHistogramBuf
  | dispatch (maxLevelInEffect : Int)
  | barrier
  | readback
deriving DecidableEq, Repr

/-- `m_Textures` lookup: resource id to texture details (0 is the null
`ResourceId()`). -/
def lookupTex (textures : List (Nat × TexDetails)) (texid : Nat) :
    Option TexDetails :=
  (textures.find? (fun p => p.fst = texid)).map Prod.snd

/-- `clampmaxlevel = details.mips - 1` (gl_debug.cpp 950, 1138). -/
def clampLevel (t : TexDetails) : Int := (t.mips : Int) - 1

/-- The `TEXTURE_MAX_LEVEL` in effect during the dispatches: set to
`clampmaxlevel` when it differs from the current parameter, untouched
(and already equal to it) otherwise (gl_debug.cpp 954-962). -/
def levelDuring (t : TexDetails) : Int :=
  if clampLevel t ≠ t.maxLevel then clampLevel t else t.maxLevel

/-- The saved `maxlevel` used for the restore: the original parameter
when a clamp was written, `-1` (sentinel: nothing to restore) when not. -/
def savedLevel (t : TexDetails) : Int :=
  if clampLevel t ≠ t.maxLevel then t.maxLevel else -1

/-- The texture's `TEXTURE_MAX_LEVEL` after the call: restored from the
saved value when that is `≥ 0` (gl_debug.cpp 983-984, 1176-1177). -/
def finalLevel (t : TexDetails) : Int :=
  if savedLevel t ≥ 0 then savedLevel t else levelDuring t

/-- The `RDCWARN("Unexpected texture type")` of the `default` case. -/
def texWarns (t : TexDetails) : List String :=
  if t.curType = GLTexType.unknown then ["Unexpected texture type"] else []

/-- Commands up to the texture bind: the renderbuffer blit when needed,
the UBO map, and the bind at the chosen slot. -/
def preCmds (t : TexDetails) : List GLCmd :=
  (if t.curType = GLTexType.renderbuffer then [GLCmd.blit] else []) ++
    [GLCmd.mapUBO, GLCmd.bindTexture (texSlotOf t.curType)]

/-- The conditional `TEXTURE_MAX_LEVEL` clamp write. -/
def clampCmds (t : TexDetails) : List GLCmd :=
  if clampLevel t ≠ t.maxLevel then [GLCmd.setMaxLevel (clampLevel t)] else []

/-- The conditional `TEXTURE_MAX_LEVEL` restore write. -/
def restoreCmds (t : TexDetails) : List GLCmd :=
  if savedLevel t ≥ 0 then [GLCmd.setMaxLevel (savedLevel t)] else []

/-- The two-phase min/max reduction: tile pass, barrier, result pass,
barrier, synchronous readback (gl_debug.cpp 964-981). -/
def minMaxBody (t : TexDetails) : List GLCmd :=
  [GLCmd.bindBuffer, GLCmd.dispatch (levelDuring t), GLCmd.barrier,
   GLCmd.bindBuffer, GLCmd.dispatch (levelDuring t), GLCmd.barrier,
   GLCmd.readback]

/-- The histogram pass: bind, clear-to-zero, count dispatch, barrier,
readback (gl_debug.cpp 1152-1168). -/
def histBody (t : TexDetails) : List GLCmd :=
  [GLCmd.bindBuffer, GLCmd.clearHistogramBuf, GLCmd.dispatch (levelDuring t),
   GLCmd.barrier, GLCmd.readback]

/-- Result of a `GetMinMax` call: success flag, issued GPU commands,
logged warnings, the binding slot used, and the texture's
`TEXTURE_MAX_LEVEL` after the call returns. -/
structure MinMaxOut where
  ok : Bool
  cmds : List GLCmd
  warns : List String
  usedSlot : Nat
  finalMaxLevel : Int
deriving DecidableEq, Repr

/-- The early-return output of `GetMinMax`: failure with nothing issued. -/
def mmFail : MinMaxOut :=
  { ok := false, cmds := [], warns := [], usedSlot := 0, finalMaxLevel := 0 }

/-- The success path of `GetMinMax` on texture `t`. -/
def minMaxSuccess (t : TexDetails) : MinMaxOut :=
  { ok := true,
    cmds := preCmds t ++ clampCmds t ++ minMaxBody t ++ restoreCmds t,
    warns := texWarns t,
    usedSlot := texSlotOf t.curType,
    finalMaxLevel := finalLevel t }

/-- `GLReplay::GetMinMax` (gl_debug.cpp 829-997): fail on a null or
unknown resource id, fail without compute-shader support, otherwise run
the two-phase reduction.  The numeric readback is not modelled; `mip`
only feeds the UBO contents, which the modelled claims do not inspect. -/
def getMinMax (hasCompute : Bool) (textures : List (Nat × TexDetails))
    (texid : Nat) (mip : Nat) : MinMaxOut :=
  if texid = 0 then mmFail
  else
    match lookupTex textures texid with
    | none => mmFail
    | some t => if hasCompute = false then mmFail else minMaxSuccess t

/-- The histogram SSBO after a counting dispatch: the compute pass
atomically adds its per-cell counts to whatever the buffer holds.  The
cell increments themselves are shader output, passed in as `counts`
(deterministic for a fixed texture and arguments). -/
def dispatchHistogram (buf counts : List Nat) : List Nat :=
  buf.enum.map (fun p => p.2 + counts.getD p.1 0)

/-- The host readback and compression (gl_debug.cpp 1163-1174): read
`HGRAM_NUM_BUCKETS * 4` words, keep `histogram[i] = histogram[i * 4]`,
resize down to `HGRAM_NUM_BUCKETS`. -/
def histReadback (raw : List Nat) : List Nat :=
  (List.range HGRAM_NUM_BUCKETS).map (fun i => raw.getD (4 * i) 0)

/-! ### Single-precision arithmetic

`HistogramMax` is computed in IEEE binary32, so the computation is
embedded through an explicit round-to-nearest-even model over `ℚ`: the
representable values are `m * 2^k` with `|m| < 2^24` and `k ≥ -149`
(full precision and gradual underflow; the overflow ceiling at `2^128`
is not modelled, and every theorem below stays far beneath it). -/

/-- Round half to even: the integer nearest `q`, ties to the even one. -/
def rne (q : ℚ) : ℤ :=
  if q - ⌊q⌋ < 1 / 2 then ⌊q⌋
  else if 1 / 2 < q - ⌊q⌋ then ⌊q⌋ + 1
  else if Even ⌊q⌋ then ⌊q⌋ else ⌊q⌋ + 1

/-- The scale of the binary32 grid around `x`: spacing `2^(e-23)` inside
the binade `[2^e, 2^(e+1))`, floored at the denormal spacing `2^-149`. -/
def kOf (x : ℚ) : ℤ :=
  max (-149) (Int.log 2 |x| - 23)

/-- Round-to-nearest-even to binary32: round `x` onto the grid of
spacing `2^(kOf x)`. -/
def round32 (x : ℚ) : ℚ :=
  (rne (x / (2 : ℚ) ^ kOf x) : ℚ) * (2 : ℚ) ^ kOf x

/-- Single-precision multiplication: one correctly rounded operation. -/
def fl32mul (a b : ℚ) : ℚ := round32 (a * b)

/-- Single-precision addition: one correctly rounded operation. -/
def fl32add (a b : ℚ) : ℚ := round32 (a + b)

/-- The exact value of the source literal `1e-6f`: the binary32 float
nearest `10^-6` is `8796093 * 2^-43` (the C compiler performs this
rounding at compile time). -/
def eps32 : ℚ := 8796093 * (2 : ℚ) ^ (-43 : ℤ)

/-- `cdata->HistogramMax = maxval + maxval * 1e-6f` (gl_debug.cpp 1096):
a binary32 multiply followed by a binary32 add, each correctly
rounded. -/
def histogramMaxBound (maxval : ℚ) : ℚ :=
  fl32add maxval (fl32mul maxval eps32)

/-- Result of a `GetHistogram` call: success flag, issued GPU commands,
warnings, the `HistogramMax` bound uploaded to the UBO, the binding slot,
the texture's `TEXTURE_MAX_LEVEL` after the call, the returned bucket
counts, and the histogram SSBO contents left behind. -/
structure HistogramOut where
  ok : Bool
  cmds : List GLCmd
  warns : List String
  uboMax : ℚ
  usedSlot : Nat
  finalMaxLevel : Int
  histogram : List Nat
  newBuf : List Nat
deriving DecidableEq, Repr

/-- The early-return output of `GetHistogram`: failure with nothing
issued and the SSBO untouched. -/
def hgFail (bufState : List Nat) : HistogramOut :=
  { ok := false, cmds := [], warns := [], uboMax := 0, usedSlot := 0,
    finalMaxLevel := 0, histogram := [], newBuf := bufState }

/-- The success path of `GetHistogram` on texture `t`: the SSBO is
cleared to zero before the counting dispatch, so the incoming buffer
state never reaches the result. -/
def histSuccess (t : TexDetails) (maxval : ℚ) (counts : List Nat) :
    HistogramOut :=
  let newBuf := dispatchHistogram (List.replicate (4 * HGRAM_NUM_BUCKETS) 0) counts
  { ok := true,
    cmds := preCmds t ++ clampCmds t ++ histBody t ++ restoreCmds t,
    warns := texWarns t,
    uboMax := histogramMaxBound maxval,
    usedSlot := texSlotOf t.curType,
    finalMaxLevel := finalLevel t,
    histogram := histReadback newBuf,
    newBuf := newBuf }

/-- `GLReplay::GetHistogram` (gl_debug.cpp 999-1180): fail on a
degenerate range or a null id, fail on an unknown id, fail without
compute-shader support, otherwise clear, count and read back.
`bufState` is the histogram SSBO contents before the call; `counts` is
the counting pass's output for this texture and argument set. -/
def getHistogram (hasCompute : Bool) (textures : List (Nat × TexDetails))
    (texid : Nat) (mip : Nat) (minval maxval : ℚ)
    (bufState counts : List Nat) : HistogramOut :=
  if minval ≥ maxval ∨ texid = 0 then hgFail bufState
  else
    match lookupTex textures texid with
    | none => hgFail bufState
    | some t => if hasCompute = false then hgFail bufState else histSuccess t maxval counts

/-- Portability warnings recorded once, at `InitDebugData`, when
`GL_ARB_compute_shader` is absent (gl_debug.cpp 487-493, 520-528,
538-545). -/
def initComputeWarnings (hasCompute : Bool) : List String :=
  if hasCompute then []
  else
    ["GL_ARB_compute_shader not supported, disabling min/max and histogram features.",
     "GL_ARB_compute_shader not supported, disabling 2DMS save/load.",
     "GL_ARB_compute_shader not supported, disabling mesh picking."]

/-! ## Pick staging buffers (gl_debug.cpp 1331-1344, 1465-1475) -/

/-- A pick staging buffer: whether a GL buffer object currently exists
(`pickIBBuf`/`pickVBBuf` nonzero) and the recorded byte capacity
(`pickIBSize`/`pickVBSize`). -/
structure StagingBuf where
  alive : Bool
  size : Nat
deriving DecidableEq, Repr

/-- The resize-on-demand step: when no buffer exists yet or the recorded
capacity is below the required size, delete, recreate at the required
size and record it; otherwise reuse.  The returned flag reports whether
the delete-and-recreate branch ran. -/
def resizeOnDemand (b : StagingBuf) (required : Nat) : StagingBuf × Bool :=
  if b.alive = false ∨ b.size < required then
    ({ alive := true, size := required }, true)
  else (b, false)

/-- A sequence of `PickVertex` calls, each with its required staging
size. -/
def resizeSeq (b : StagingBuf) (reqs : List Nat) : StagingBuf :=
  reqs.foldl (fun s r => (resizeOnDemand s r).1) b

/-! ## Helper lemmas about the statistics models -/

theorem getMinMax_success (textures : List (Nat × TexDetails)) (texid mip : Nat)
    (t : TexDetails) (h0 : texid ≠ 0) (hl : lookupTex textures texid = some t) :
    getMinMax true textures texid mip = minMaxSuccess t := by
  unfold getMinMax
  rw [if_neg h0, hl]
  simp

theorem getHistogram_success (textures : List (Nat × TexDetails)) (texid mip : Nat)
    (minval maxval : ℚ) (bufState counts : List Nat) (t : TexDetails)
    (h0 : texid ≠ 0) (hl : lookupTex textures texid = some t)
    (hrange : minval < maxval) :
    getHistogram true textures texid mip minval maxval bufState counts =
      histSuccess t maxval counts := by
  unfold getHistogram
  rw [if_neg (by push_neg; exact ⟨hrange, h0⟩), hl]
  simp

theorem levelDuring_eq_clamp (t : TexDetails) : levelDuring t = clampLevel t := by
  unfold levelDuring
  split_ifs with h
  · rfl
  · exact (not_not.mp h).symm

theorem finalLevel_eq (t : TexDetails) (hml : 0 ≤ t.maxLevel) :
    finalLevel t = t.maxLevel := by
  unfold finalLevel savedLevel levelDuring
  by_cases h : clampLevel t ≠ t.maxLevel
  · simp only [if_pos h]
    rw [if_pos hml]
  · simp only [if_neg h]
    rw [if_neg (by norm_num)]

theorem dispatch_level_minMax (t : TexDetails) (v : Int)
    (hv : GLCmd.dispatch v ∈ (minMaxSuccess t).cmds) : v = clampLevel t := by
  rw [← levelDuring_eq_clamp t]
  simp only [minMaxSuccess, preCmds, clampCmds, minMaxBody, restoreCmds] at hv
  by_cases h1 : t.curType = GLTexType.renderbuffer <;>
    by_cases h2 : clampLevel t ≠ t.maxLevel <;>
      by_cases h3 : savedLevel t ≥ 0 <;>
        simp [h1, h2, h3] at hv <;> exact hv

theorem dispatch_level_hist (t : TexDetails) (maxval : ℚ) (counts : List Nat)
    (v : Int) (hv : GLCmd.dispatch v ∈ (histSuccess t maxval counts).cmds) :
    v = clampLevel t := by
  rw [← levelDuring_eq_clamp t]
  simp only [histSuccess, preCmds, clampCmds, histBody, restoreCmds] at hv
  by_cases h1 : t.curType = GLTexType.renderbuffer <;>
    by_cases h2 : clampLevel t ≠ t.maxLevel <;>
      by_cases h3 : savedLevel t ≥ 0 <;>
        simp [h1, h2, h3] at hv <;> exact hv

/-! ## Claim theorems for the statistics engine -/

/-- Claim C5: `GetHistogram` fails whenever `minval ≥ maxval` or the
resource id is null or absent from the texture map, `GetMinMax` fails
whenever the resource id is null or absent, and every such failing call
issues no GPU command at all. -/
theorem invalid_request_no_gpu_commands (hasCompute : Bool)
    (textures : List (Nat × TexDetails)) (texid mip : Nat)
    (minval maxval : ℚ) (bufState counts : List Nat) :
    ((texid = 0 ∨ lookupTex textures texid = none) →
      (getMinMax hasCompute textures texid mip).ok = false ∧
      (getMinMax hasCompute textures texid mip).cmds = []) ∧
    ((minval ≥ maxval ∨ texid = 0 ∨ lookupTex textures texid = none) →
      (getHistogram hasCompute textures texid mip minval maxval bufState counts).ok
        = false ∧
      (getHistogram hasCompute textures texid mip minval maxval bufState counts).cmds
        = []) := by
  constructor
  · intro h
    by_cases h0 : texid = 0
    · simp [getMinMax, h0, mmFail]
    · rcases h with h | h
      · exact absurd h h0
      · simp [getMinMax, h0, h, mmFail]
  · intro h
    by_cases hd : minval ≥ maxval ∨ texid = 0
    · simp [getHistogram, hd, hgFail]
    · rcases h with h | h | h
      · exact absurd (Or.inl h) hd
      · exact absurd (Or.inr h) hd
      · simp [getHistogram, hd, h, hgFail]

/-- Witness for C5: a null resource id makes both calls fail with no
commands issued. -/
theorem invalid_request_no_gpu_commands_witness :
    (getMinMax true [] 0 0).ok = false ∧ (getMinMax true [] 0 0).cmds = [] ∧
    (getHistogram true [] 0 0 0 1 [] []).ok = false ∧
    (getHistogram true [] 0 0 0 1 [] []).cmds = [] := by
  obtain ⟨h1, h2⟩ := invalid_request_no_gpu_commands true [] 0 0 0 1 [] []
  have a := h1 (Or.inl rfl)
  have b := h2 (Or.inr (Or.inl rfl))
  exact ⟨a.1, a.2, b.1, b.2⟩

/-- Claim C6 (amended): for every successful `GetMinMax` and
`GetHistogram` call, `TEXTURE_MAX_LEVEL` is temporarily clamped to the
texture's mip count minus one - not to the requested mip - before the
compute dispatches, and restored afterwards, so the parameter observed
after the call equals its value before the call. -/
theorem maxlevel_clamped_and_restored (textures : List (Nat × TexDetails))
    (texid mip : Nat) (minval maxval : ℚ) (bufState counts : List Nat)
    (t : TexDetails) (h0 : texid ≠ 0)
    (hl : lookupTex textures texid = some t) (hml : 0 ≤ t.maxLevel)
    (hrange : minval < maxval) :
    (getMinMax true textures texid mip).ok = true ∧
    (getMinMax true textures texid mip).finalMaxLevel = t.maxLevel ∧
    (∀ v : Int, GLCmd.dispatch v ∈ (getMinMax true textures texid mip).cmds →
      v = (t.mips : Int) - 1) ∧
    (getHistogram true textures texid mip minval maxval bufState counts).ok = true ∧
    (getHistogram true textures texid mip minval maxval bufState counts).finalMaxLevel
      = t.maxLevel ∧
    (∀ v : Int,
      GLCmd.dispatch v ∈
        (getHistogram true textures texid mip minval maxval bufState counts).cmds →
      v = (t.mips : Int) - 1) := by
  rw [getMinMax_success textures texid mip t h0 hl,
    getHistogram_success textures texid mip minval maxval bufState counts t h0 hl hrange]
  refine ⟨rfl, finalLevel_eq t hml, ?_, rfl, finalLevel_eq t hml, ?_⟩
  · intro v hv
    exact dispatch_level_minMax t v hv
  · intro v hv
    exact dispatch_level_hist t maxval counts v hv

/-- Counterexample for C6 as stated: a 4-mip 2D texture queried at mip 1
dispatches with `TEXTURE_MAX_LEVEL` set to 3 (the mip count minus one),
not to the requested mip 1. -/
theorem maxlevel_clamp_not_requested_mip :
    GLCmd.dispatch 3 ∈
      (getMinMax true [(1, ⟨GLTexType.tex2D, 4, 1000⟩)] 1 1).cmds ∧
    GLCmd.dispatch 1 ∉
      (getMinMax true [(1, ⟨GLTexType.tex2D, 4, 1000⟩)] 1 1).cmds ∧
    (3 : Int) ≠ 1 := by
  decide

/-- Witness for C6: the 4-mip texture's `TEXTURE_MAX_LEVEL` of 1000 is
intact after both calls. -/
theorem maxlevel_clamped_and_restored_witness :
    (getMinMax true [(1, ⟨GLTexType.tex2D, 4, 1000⟩)] 1 0).finalMaxLevel = 1000 ∧
    (getHistogram true [(1, ⟨GLTexType.tex2D, 4, 1000⟩)] 1 0 0 1 [] []).finalMaxLevel
      = 1000 := by
  obtain ⟨-, h2, -, -, h5, -⟩ :=
    maxlevel_clamped_and_restored [(1, ⟨GLTexType.tex2D, 4, 1000⟩)] 1 0 0 1 [] []
      ⟨GLTexType.tex2D, 4, 1000⟩ (by decide) (by decide) (by decide) (by norm_num)
  exact ⟨h2, h5⟩

/-! ### Rounding lemmas for the binary32 model -/

/-- Claim C9: two `GetHistogram` calls with identical arguments on an
unmodified texture (hence identical counting-pass output `counts`)
return identical bucket counts, whatever the histogram buffer held
beforehand, and exactly `HGRAM_NUM_BUCKETS` buckets are read back. -/
theorem getHistogram_idempotent (textures : List (Nat × TexDetails))
    (texid mip : Nat) (minval maxval : ℚ) (s1 s2 counts : List Nat)
    (t : TexDetails) (h0 : texid ≠ 0)
    (hl : lookupTex textures texid = some t) (hrange : minval < maxval) :
    (getHistogram true textures texid mip minval maxval s1 counts).histogram =
      (getHistogram true textures texid mip minval maxval s2 counts).histogram ∧
    (getHistogram true textures texid mip minval maxval s1 counts).histogram.length =
      HGRAM_NUM_BUCKETS := by
  rw [getHistogram_success textures texid mip minval maxval s1 counts t h0 hl hrange,
    getHistogram_success textures texid mip minval maxval s2 counts t h0 hl hrange]
  exact ⟨rfl, by simp [histSuccess, histReadback]⟩

/-- Witness for C9: two calls with dirty and clean prior buffer states
agree. -/
theorem getHistogram_idempotent_witness :
    (getHistogram true [(1, ⟨GLTexType.tex2D, 1, 0⟩)] 1 0 0 1 [9, 9, 9] [5]).histogram =
      (getHistogram true [(1, ⟨GLTexType.tex2D, 1, 0⟩)] 1 0 0 1 [] [5]).histogram ∧
    (getHistogram true
        [(1, ⟨GLTexType.tex2D, 1, 0⟩)] 1 0 0 1 [9, 9, 9] [5]).histogram.length =
      HGRAM_NUM_BUCKETS :=
  getHistogram_idempotent [(1, ⟨GLTexType.tex2D, 1, 0⟩)] 1 0 0 1 [9, 9, 9] [] [5]
    ⟨GLTexType.tex2D, 1, 0⟩ (by decide) (by decide) (by norm_num)

/-- Claim C10: a texture whose bind type is outside the enumerated set
does not make `GetMinMax` or `GetHistogram` fail: both log the
"Unexpected texture type" warning and process it through the
`RESTYPE_TEX2D` binding slot, returning success as for a 2D texture. -/
theorem unknown_tex_type_tex2d_path (textures : List (Nat × TexDetails))
    (texid mip : Nat) (minval maxval : ℚ) (bufState counts : List Nat)
    (t : TexDetails) (h0 : texid ≠ 0)
    (hl : lookupTex textures texid = some t)
    (htype : t.curType = GLTexType.unknown) (hrange : minval < maxval) :
    (getMinMax true textures texid mip).ok = true ∧
    (getMinMax true textures texid mip).usedSlot = RESTYPE_TEX2D ∧
    "Unexpected texture type" ∈ (getMinMax true textures texid mip).warns ∧
    (getHistogram true textures texid mip minval maxval bufState counts).ok = true ∧
    (getHistogram true textures texid mip minval maxval bufState counts).usedSlot
      = RESTYPE_TEX2D ∧
    "Unexpected texture type" ∈
      (getHistogram true textures texid mip minval maxval bufState counts).warns := by
  rw [getMinMax_success textures texid mip t h0 hl,
    getHistogram_success textures texid mip minval maxval bufState counts t h0 hl
      hrange]
  simp [minMaxSuccess, histSuccess, texSlotOf, texWarns, htype]

/-- Witness for C10: a texture of unknown bind type succeeds via the 2D
slot in both calls. -/
theorem unknown_tex_type_tex2d_path_witness :
    (getMinMax true [(1, ⟨GLTexType.unknown, 1, 0⟩)] 1 0).ok = true ∧
    (getMinMax true [(1, ⟨GLTexType.unknown, 1, 0⟩)] 1 0).usedSlot = RESTYPE_TEX2D ∧
    (getHistogram true [(1, ⟨GLTexType.unknown, 1, 0⟩)] 1 0 0 1 [] []).ok = true := by
  obtain ⟨h1, h2, -, h4, -, -⟩ :=
    unknown_tex_type_tex2d_path [(1, ⟨GLTexType.unknown, 1, 0⟩)] 1 0 0 1 [] []
      ⟨GLTexType.unknown, 1, 0⟩ (by decide) (by decide) (by decide) (by norm_num)
  exact ⟨h1, h2, h4⟩

/-- Claim C8: without the `ARB_compute_shader` capability every
`GetMinMax` call fails, every `GetHistogram` call fails, every
`PickVertex` call returns the `~0U` sentinel, and initialization records
the one-time portability warnings; none of this is fatal - each function
returns a value. -/
theorem no_compute_shader_all_fail (textures : List (Nat × TexDetails))
    (texid mip : Nat) (minval maxval : ℚ) (bufState counts : List Nat)
    (topo : Topology) (numResults : Nat) (triBuf : List TriPick)
    (lineBuf : List LinePick) :
    (getMinMax false textures texid mip).ok = false ∧
    (getHistogram false textures texid mip minval maxval bufState counts).ok
      = false ∧
    pickVertex false topo numResults triBuf lineBuf = PICK_NONE ∧
    initComputeWarnings false ≠ [] := by
  refine ⟨?_, ?_, rfl, by simp [initComputeWarnings]⟩
  · unfold getMinMax
    split
    · rfl
    · split
      · rfl
      · rfl
  · unfold getHistogram
    split
    · rfl
    · split
      · rfl
      · rfl

theorem resizeOnDemand_size_le (b : StagingBuf) (required : Nat)
    (hInv : b.alive = false → b.size = 0) :
    b.size ≤ (resizeOnDemand b required).1.size := by
  unfold resizeOnDemand
  split_ifs with h
  · rcases h with h | h
    · simp [hInv h]
    · exact h.le
  · exact le_refl _

theorem resizeOnDemand_inv (b : StagingBuf) (required : Nat)
    (hInv : b.alive = false → b.size = 0) :
    (resizeOnDemand b required).1.alive = false →
      (resizeOnDemand b required).1.size = 0 := by
  unfold resizeOnDemand
  split_ifs with h
  · intro hc
    simp at hc
  · exact hInv

theorem resizeSeq_size_le (b : StagingBuf) (reqs : List Nat)
    (hInv : b.alive = false → b.size = 0) :
    b.size ≤ (resizeSeq b reqs).size := by
  induction reqs generalizing b with
  | nil => exact le_refl _
  | cons r rs ih =>
    exact le_trans (resizeOnDemand_size_le b r hInv)
      (ih (resizeOnDemand b r).1 (resizeOnDemand_inv b r hInv))

/-- Claim C7: across any sequence of `PickVertex` calls the staging
buffer capacities never decrease; an existing buffer is destroyed and
recreated exactly when the required size strictly exceeds the recorded
capacity, and the new capacity is then the required size, strictly
larger than the old one. -/
theorem staging_buffers_grow_only (b : StagingBuf) (required : Nat)
    (reqs : List Nat) (hInv : b.alive = false → b.size = 0) :
    b.size ≤ (resizeOnDemand b required).1.size ∧
    b.size ≤ (resizeSeq b reqs).size ∧
    (b.alive = true →
      ((resizeOnDemand b required).2 = true ↔ b.size < required)) ∧
    (b.alive = true → (resizeOnDemand b required).2 = true →
      (resizeOnDemand b required).1.size = required ∧
      b.size < (resizeOnDemand b required).1.size) := by
  refine ⟨resizeOnDemand_size_le b required hInv, resizeSeq_size_le b reqs hInv,
    ?_, ?_⟩
  · intro ha
    by_cases h : b.size < required
    · simp [resizeOnDemand, ha, h]
    · simp [resizeOnDemand, ha, h]
  · intro ha hrec
    by_cases h : b.size < required
    · simp only [resizeOnDemand, ha] at hrec ⊢
      simp [h]
    · simp [resizeOnDemand, ha, h] at hrec

/-- Witness for C7: an 8-byte buffer asked for 16 bytes grows, and a
later smaller request leaves the capacity alone. -/
theorem staging_buffers_grow_only_witness :
    (8 : Nat) ≤ (resizeOnDemand ⟨true, 8⟩ 16).1.size ∧
    (8 : Nat) ≤ (resizeSeq ⟨true, 8⟩ [4]).size ∧
    ((resizeOnDemand ⟨true, 8⟩ 16).2 = true ↔ (8 : Nat) < 16) := by
  obtain ⟨h1, h2, h3, -⟩ := staging_buffers_grow_only ⟨true, 8⟩ 16 [4] (by decide)
  exact ⟨h1, h2, h3 rfl⟩
